import Mathlib

/-!
Shallow embedding of the Zenvyra real-time matchmaking subsystem:
the Redis-backed distributed lock (`RedisService.acquireLock` /
`releaseLock` / `withLock` from `src/config/redis.ts`), the presence
tracker (`src/services/friends/presenceTracker.ts`), and the session
model (`src/models/Session.ts` together with the SQL constraints of
`003_create_sessions.sql` and the cleanup job `sessionCleanup.ts`).

Time is modelled as an explicit `now : Nat` parameter (milliseconds, as
`Date.now()` in the source).  The Redis store is a map from keys to
entries carrying an absolute expiry instant; an entry whose expiry is
not in the future is invisible, which models TTL expiry.  A store error
(the `catch` branches in the source) is modelled by an `err` flag on the
state: every raw store operation raises when the flag is set, and the
service wrappers catch exactly as the source does.
-/

namespace Zenvyra

/-- One Redis string entry: the stored value and the absolute instant
(ms) at which it expires (`PX`/`SETEX` expiry). -/
structure RedisEntry where
  value : String
  expiresAt : Nat

/-- The Redis string keyspace visible to the lock primitive, plus the
error flag modelling an unreachable/failing store. -/
structure RedisState where
  kv : String → Option RedisEntry
  err : Bool

/-- A store with no keys and a healthy connection. -/
def emptyRedis : RedisState := { kv := fun _ => none, err := false }

/-- A store with no keys whose connection raises on every operation. -/
def failingRedis : RedisState := { kv := fun _ => none, err := true }

/-- Value currently visible under `key`: the stored value when the entry
is live (`now < expiresAt`), `none` otherwise (absent or expired). -/
def RedisState.get (st : RedisState) (now : Nat) (key : String) : Option String :=
  match st.kv key with
  | some e => if now < e.expiresAt then some e.value else none
  | none => none

/-- Errors raised by the raw Redis client. -/
inductive RedisErr
  | storeError

/-- Raw `SET key value PX ttl NX`: raises if the store errs; otherwise
returns `some "OK"` and writes the entry when the key is absent, or
returns `none` (nil reply) leaving the store unchanged when the key is
live. -/
def redisSetPxNx (st : RedisState) (now : Nat) (key value : String) (ttl : Nat) :
    Except RedisErr (Option String × RedisState) :=
  if st.err then .error .storeError
  else
    match st.get now key with
    | some _ => .ok (none, st)
    | none =>
        .ok (some "OK",
          { st with kv := fun k => if k = key then some ⟨value, now + ttl⟩ else st.kv k })

/-- Raw `DEL key`: raises if the store errs; otherwise removes the key. -/
def redisDel (st : RedisState) (key : String) : Except RedisErr RedisState :=
  if st.err then .error .storeError
  else .ok { st with kv := fun k => if k = key then none else st.kv k }

/-- `RedisService.acquireLock(key, ttl)` (src/config/redis.ts): issues
`SET key '1' PX ttl NX`; returns whether the reply was `'OK'`; a store
error is caught and reported as `false` with the store untouched. -/
def acquireLock (now : Nat) (key : String) (ttl : Nat) (st : RedisState) :
    Bool × RedisState :=
  match redisSetPxNx st now key "1" ttl with
  | .ok (result, st') => (result == some "OK", st')
  | .error _ => (false, st)

/-- `RedisService.releaseLock(key)` (src/config/redis.ts): issues a
plain `DEL key`; it takes no ownership token and deletes
unconditionally; a store error is caught, leaving the store as is. -/
def releaseLock (key : String) (st : RedisState) : RedisState :=
  match redisDel st key with
  | .ok st' => st'
  | .error _ => st

/-- `RedisService.withLock(lockKey, callback, ttl)` (src/config/redis.ts).
The callback is modelled as a state transformer that either returns a
value or throws, in both cases yielding the store it left behind; the
`finally` block releases the lock on both the normal and the throwing
path; when acquisition fails the callback is never run and `null`
(here `Except.ok none`) is returned. -/
def withLock (E : Type) (α : Type) (now : Nat) (lockKey : String)
    (cb : RedisState → Except E α × RedisState) (ttl : Nat) (st : RedisState) :
    Except E (Option α) × RedisState :=
  let acq := acquireLock now lockKey ttl st
  if acq.1 then
    let r := cb acq.2
    match r.1 with
    | .ok t => (.ok (some t), releaseLock lockKey r.2)
    | .error e => (.error e, releaseLock lockKey r.2)
  else (.ok none, acq.2)

/-!
Presence tracker (`src/services/friends/presenceTracker.ts`).  The
tracker keeps one `user:online:<userId>` key per connected user holding
a JSON presence record with a TTL, plus a `socket:user:<socketId>` back
pointer, and publishes events on the `USER_ONLINE` / `USER_OFFLINE`
channels.  The two keyspaces are modelled as association lists of
`(key, payload, expiresAt)` so that the `SCAN`-based key count is
expressible; publications are accumulated in a list.  The database
`User.updateLastSeen` side call and the metrics gauge update mutate
state outside this subsystem and are not modelled.
-/

/-- `UserStatus` from `src/config/constants.ts`, as used by the
presence tracker. -/
inductive UserStatus
  | online
  | offline
  | away
  | in_call
deriving DecidableEq, Repr

/-- `IUserPresence` (presenceTracker.ts): the JSON record stored under
`user:online:<userId>`. -/
structure UserPresence where
  userId : String
  status : UserStatus
  socketId : Option String
  lastSeen : Nat
deriving DecidableEq, Repr

/-- An event published on the Redis pub/sub bus by the tracker. -/
inductive PubEvent
  | userOnline (userId : String) (status : UserStatus) (timestamp : Nat)
  | userOffline (userId : String) (timestamp : Nat)
deriving DecidableEq, Repr

/-- State touched by the presence tracker: the `user:online:*` keyspace,
the `socket:user:*` keyspace (each entry carries its expiry instant),
the bus publications so far, and the store-error flag. -/
structure PresenceState where
  onlineKeys : List (String × UserPresence × Nat)
  socketKeys : List (String × String × Nat)
  published : List PubEvent
  err : Bool
deriving DecidableEq, Repr

/-- A presence store with no records and a healthy connection. -/
def emptyPresence : PresenceState :=
  { onlineKeys := [], socketKeys := [], published := [], err := false }

/-- A presence store whose every operation raises. -/
def failingPresence : PresenceState :=
  { onlineKeys := [], socketKeys := [], published := [], err := true }

/-- `SETEX`-style upsert into an association list: replaces the entry
for `k` if present, appends otherwise. -/
def setAssoc (k : String) (v : α) : List (String × α) → List (String × α)
  | [] => [(k, v)]
  | (k', v') :: rest => if k' = k then (k, v) :: rest else (k', v') :: setAssoc k v rest

/-- `DEL` on an association list. -/
def delAssoc (k : String) (l : List (String × α)) : List (String × α) :=
  l.filter (fun p => p.1 != k)

/-- `GET` on an association list of TTL-carrying entries: only a live
entry (`now < expiresAt`) is visible. -/
def getLive (now : Nat) (k : String) : List (String × α × Nat) → Option α
  | [] => none
  | (k', v, exp) :: rest =>
      if k' = k then (if now < exp then some v else none) else getLive now k rest

/-- `PRESENCE_TTL` (presenceTracker.ts): 300 seconds. -/
def PRESENCE_TTL : Nat := 300

/-- `HEARTBEAT_INTERVAL` (presenceTracker.ts): 60000 milliseconds. -/
def HEARTBEAT_INTERVAL : Nat := 60000

/-- `PresenceTracker.getUserPresence(userId)`: reads and parses the
`user:online:<userId>` key; returns `null` when absent, expired, or on
a store error (caught internally). -/
def getUserPresence (now : Nat) (userId : String) (st : PresenceState) :
    Option UserPresence :=
  if st.err then none else getLive now userId st.onlineKeys

/-- `PresenceTracker.setUserOnline(userId, socketId, status)`: writes the
presence record and the socket back pointer with `PRESENCE_TTL` expiry,
publishes a `USER_ONLINE` event, and returns `true`; any store error is
caught and reported as `false` with the state untouched. -/
def setUserOnline (now : Nat) (userId socketId : String) (status : UserStatus)
    (st : PresenceState) : Bool × PresenceState :=
  if st.err then (false, st)
  else
    let presence : UserPresence := ⟨userId, status, some socketId, now⟩
    let exp := now + PRESENCE_TTL * 1000
    (true,
      { st with
        onlineKeys := setAssoc userId (presence, exp) st.onlineKeys
        socketKeys := setAssoc socketId (userId, exp) st.socketKeys
        published := st.published ++ [.userOnline userId status now] })

/-- `PresenceTracker.setUserOffline(userId)`: looks up the record to
recover the socket id, deletes both keys, publishes a `USER_OFFLINE`
event, and returns `true`; a store error is caught and reported as
`false`. -/
def setUserOffline (now : Nat) (userId : String) (st : PresenceState) :
    Bool × PresenceState :=
  if st.err then (false, st)
  else
    let presence := getUserPresence now userId st
    let socketGone :=
      match presence with
      | some p =>
          match p.socketId with
          | some sid => delAssoc sid st.socketKeys
          | none => st.socketKeys
      | none => st.socketKeys
    (true,
      { st with
        onlineKeys := delAssoc userId st.onlineKeys
        socketKeys := socketGone
        published := st.published ++ [.userOffline userId now] })

/-- `PresenceTracker.updateUserStatus(userId, status)`: re-reads the
record; if absent returns `false`; otherwise rewrites it with the new
status, a fresh `lastSeen` and a fresh TTL and returns `true`.  Note:
no event is published on this path. -/
def updateUserStatus (now : Nat) (userId : String) (status : UserStatus)
    (st : PresenceState) : Bool × PresenceState :=
  if st.err then (false, st)
  else
    match getUserPresence now userId st with
    | none => (false, st)
    | some p =>
        let p' := { p with status := status, lastSeen := now }
        (true,
          { st with
            onlineKeys := setAssoc userId (p', now + PRESENCE_TTL * 1000) st.onlineKeys })

/-- `PresenceTracker.setUserAway(userId)`: delegates to
`updateUserStatus` with `AWAY`. -/
def setUserAway (now : Nat) (userId : String) (st : PresenceState) :
    Bool × PresenceState :=
  updateUserStatus now userId .away st

/-- `PresenceTracker.setUserInCall(userId)`: delegates to
`updateUserStatus` with `IN_CALL`. -/
def setUserInCall (now : Nat) (userId : String) (st : PresenceState) :
    Bool × PresenceState :=
  updateUserStatus now userId .in_call st

/-- `PresenceTracker.isUserOnline(userId)`: `true` exactly when a live
presence record exists; errors yield `false`. -/
def isUserOnline (now : Nat) (userId : String) (st : PresenceState) : Bool :=
  (getUserPresence now userId st).isSome

/-- `PresenceTracker.getUserStatus(userId)`: the stored status, or
`OFFLINE` when the record is absent/expired or the store errs. -/
def getUserStatus (now : Nat) (userId : String) (st : PresenceState) : UserStatus :=
  match getUserPresence now userId st with
  | some p => p.status
  | none => .offline

/-- `PresenceTracker.getOnlineUsersCount()`: `SCAN`s the
`user:online:*` keyspace and counts the keys (expired keys are gone
from Redis, hence only live entries are counted); errors yield `0`. -/
def getOnlineUsersCount (now : Nat) (st : PresenceState) : Nat :=
  if st.err then 0
  else (st.onlineKeys.filter (fun p => decide (now < p.2.2))).length

/-!
Session model (`src/models/Session.ts` over the `sessions` table of
`003_create_sessions.sql`).  The table is a list of rows; `NOW()` is the
explicit `now` parameter (ms).  `uuid_generate_v4()` primary keys are
modelled as a caller-supplied `newId`.  The SQL `CHECK` constraint
`sessions_users_different (user1_id != user2_id)` makes an insert of a
self-pair fail, which the `catch` in `Session.create` turns into a
`null` return with the table untouched.
-/

/-- `SessionStatus` (`src/config/constants.ts`), matching the SQL check
`status IN ('active', 'ended', 'abandoned')`. -/
inductive SessionStatus
  | active
  | ended
  | abandoned
deriving DecidableEq, Repr

/-- `SessionType`, matching `session_type IN ('video', 'audio', 'text')`. -/
inductive SessionType
  | video
  | audio
  | text
deriving DecidableEq, Repr

/-- One row of the `sessions` table (`ISession`). -/
structure SessionRow where
  id : Nat
  session_type : SessionType
  user1_id : String
  user2_id : String
  status : SessionStatus
  started_at : Nat
  ended_at : Option Nat
deriving DecidableEq, Repr

namespace Session

/-- `Session.create(sessionType, user1Id, user2Id)`: `INSERT` of an
active row with `started_at = NOW()`; the `sessions_users_different`
check rejects a self-pair, and the catch turns the constraint error
into `null` with no row written. -/
def create (newId : Nat) (sessionType : SessionType) (user1Id user2Id : String)
    (now : Nat) (rows : List SessionRow) : Option SessionRow × List SessionRow :=
  if user1Id = user2Id then (none, rows)
  else
    let row : SessionRow := ⟨newId, sessionType, user1Id, user2Id, .active, now, none⟩
    (some row, rows ++ [row])

/-- The per-row effect of `Session.endSession`'s `UPDATE ... WHERE id =
$2 AND status = 'active'`. -/
def endRow (id : Nat) (status : SessionStatus) (now : Nat) (r : SessionRow) :
    SessionRow :=
  if r.id = id ∧ r.status = .active then { r with status := status, ended_at := some now }
  else r

/-- `Session.endSession(id, status)`: updates the row with the given id
only while it is still `active`, stamping `ended_at = NOW()`; returns
`true` iff a row was updated (`RETURNING *` nonempty), `false` when the
session is unknown or already ended. -/
def endSession (id : Nat) (status : SessionStatus) (now : Nat)
    (rows : List SessionRow) : Bool × List SessionRow :=
  (decide (0 < rows.countP (fun r => decide (r.id = id ∧ r.status = .active))),
   rows.map (endRow id status now))

/-- The `WHERE status = 'active' AND started_at < NOW() - INTERVAL 'm
minutes'` filter of `cleanupAbandonedSessions`. -/
def overaged (maxDurationMinutes now : Nat) (r : SessionRow) : Bool :=
  r.status == .active && decide (r.started_at + maxDurationMinutes * 60000 < now)

/-- The per-row effect of the abandoned-session `UPDATE`. -/
def abandonRow (maxDurationMinutes now : Nat) (r : SessionRow) : SessionRow :=
  if overaged maxDurationMinutes now r then
    { r with status := .abandoned, ended_at := some now }
  else r

/-- `Session.cleanupAbandonedSessions(maxDurationMinutes)`: marks every
active session older than the ceiling as `abandoned` with `ended_at =
NOW()` and returns how many rows were updated (`RETURNING id`). -/
def cleanupAbandonedSessions (maxDurationMinutes now : Nat)
    (rows : List SessionRow) : Nat × List SessionRow :=
  (rows.countP (overaged maxDurationMinutes now),
   rows.map (abandonRow maxDurationMinutes now))

end Session

namespace SessionCleanupJob

/-- `ABANDONED_SESSION_TIMEOUT` (src/jobs/sessionCleanup.ts): 60
minutes, the default ceiling the periodic job passes down. -/
def ABANDONED_SESSION_TIMEOUT : Nat := 60

/-- `SessionCleanupJob.cleanupAbandonedSessions()`: calls the model's
sweep with the 60-minute ceiling (its own catch, returning 0, never
fires in the pure model). -/
def cleanupAbandonedSessions (now : Nat) (rows : List SessionRow) :
    Nat × List SessionRow :=
  Session.cleanupAbandonedSessions ABANDONED_SESSION_TIMEOUT now rows

end SessionCleanupJob

/-! Helper lemmas. -/

/-- A lock acquisition that reports failure leaves the store untouched
(the key was live, or the store raised and the catch returned). -/
theorem acquireLock_fail_frame (now ttl : Nat) (key : String) (st : RedisState)
    (h : (acquireLock now key ttl st).1 = false) :
    (acquireLock now key ttl st).2 = st := by
  unfold acquireLock redisSetPxNx at *
  by_cases he : st.err
  · simp [he] at h ⊢
  · simp [he] at h ⊢
    cases hg : st.get now key with
    | some v => simp [hg]
    | none => simp [hg] at h

/-- A successful acquisition stores the `'1'` entry expiring at
`now + ttl` and preserves the error flag. -/
theorem acquireLock_true_state (now ttl : Nat) (key : String) (st : RedisState)
    (h : (acquireLock now key ttl st).1 = true) :
    (acquireLock now key ttl st).2 =
      { st with kv := fun k => if k = key then some ⟨"1", now + ttl⟩ else st.kv k } := by
  unfold acquireLock redisSetPxNx at *
  by_cases he : st.err
  · simp [he] at h
  · simp [he] at h ⊢
    cases hg : st.get now key with
    | some v => simp [hg] at h
    | none => simp [hg]

/-- On a healthy store, `releaseLock` unconditionally removes the key
and leaves every other key alone. -/
theorem releaseLock_kv (key : String) (st : RedisState) (hok : st.err = false) :
    (releaseLock key st).kv = fun k => if k = key then none else st.kv k := by
  unfold releaseLock redisDel
  simp [hok]

/-- Mapping a function that fixes every element of a list is the
identity on that list. -/
theorem map_fix_eq_self {α : Type} (f : α → α) (l : List α)
    (h : ∀ a ∈ l, f a = a) : l.map f = l := by
  induction l with
  | nil => rfl
  | cons x xs ih =>
      simp only [List.map_cons]
      rw [h x (List.mem_cons_self x xs), ih (fun a ha => h a (List.mem_cons_of_mem x ha))]

/-! Claim theorems. -/

/-- Claim C9: the presence TTL (300 s) is at least five times the
heartbeat interval (60000 ms), so one missed heartbeat cannot expire an
online user's record. -/
theorem presence_ttl_five_times_heartbeat :
    PRESENCE_TTL * 1000 ≥ 5 * HEARTBEAT_INTERVAL := by decide

/-- Claim C1 counterexample: after an acquire stores `'1'` under the
lock key, a release performed while holding the mismatched token `'2'`
(`'2' ≠ '1'`) still deletes the key — `releaseLock` takes no token and
is not a no-op on mismatch, refuting the claim as stated. -/
theorem releaseLock_counterexample :
    RedisState.get (acquireLock 0 "lock:m" 5000 emptyRedis).2 0 "lock:m" = some "1" ∧
    ("2" : String) ≠ "1" ∧
    RedisState.get (releaseLock "lock:m" (acquireLock 0 "lock:m" 5000 emptyRedis).2)
      0 "lock:m" = none := by
  refine ⟨rfl, by decide, rfl⟩

/-- Claim C1 amended: `releaseLock(key)` takes no ownership token and
unconditionally deletes the lock key whatever value it holds (other
keys are untouched); it is not token-guarded. -/
theorem releaseLock_unconditional_delete (key k : String) (st : RedisState)
    (now : Nat) (hok : st.err = false) :
    RedisState.get (releaseLock key st) now key = none ∧
    (k ≠ key → (releaseLock key st).kv k = st.kv k) := by
  constructor
  · simp [RedisState.get, releaseLock_kv key st hok]
  · intro hk
    simp [releaseLock_kv key st hok, hk]

/-- Witness for the amended C1 theorem at a concrete store. -/
theorem releaseLock_unconditional_delete_witness :
    RedisState.get (releaseLock "a" emptyRedis) 0 "a" = none ∧
    ("b" ≠ "a" → (releaseLock "a" emptyRedis).kv "b" = emptyRedis.kv "b") :=
  releaseLock_unconditional_delete "a" "b" emptyRedis 0 rfl

/-- Claim C2: on a healthy store, `acquireLock` succeeds iff the key is
absent; when the key is live it fails without modifying the store; a
success stores the entry until `now + ttl` so a second acquire on the
same key before expiry fails and changes nothing — of two acquires
before any release or expiry, exactly one succeeds. -/
theorem acquireLock_exclusive (now now' ttl ttl' : Nat) (key : String)
    (st : RedisState) (hok : st.err = false) :
    (∀ v, st.get now key = some v → acquireLock now key ttl st = (false, st)) ∧
    (st.get now key = none →
      (acquireLock now key ttl st).1 = true ∧
      (∀ t, t < now + ttl →
        ((acquireLock now key ttl st).2).get t key = some "1") ∧
      (∀ t, now + ttl ≤ t →
        ((acquireLock now key ttl st).2).get t key = none) ∧
      (now' < now + ttl →
        acquireLock now' key ttl' (acquireLock now key ttl st).2 =
          (false, (acquireLock now key ttl st).2))) := by
  constructor
  · intro v hv
    unfold acquireLock redisSetPxNx
    simp [hok, hv]
  · intro habs
    have h1 : (acquireLock now key ttl st).1 = true := by
      unfold acquireLock redisSetPxNx
      simp [hok, habs]
    have h2 := acquireLock_true_state now ttl key st h1
    refine ⟨h1, ?_, ?_, ?_⟩
    · intro t ht
      rw [h2]
      simp [RedisState.get, ht]
    · intro t ht
      rw [h2]
      simp [RedisState.get, Nat.not_lt.mpr ht]
    · intro hlt
      rw [h2]
      unfold acquireLock redisSetPxNx
      simp [hok, RedisState.get, hlt]

/-- Witness for C2 at a concrete store: the first acquire succeeds and
the second, 1 ms later on the same key, fails without modification. -/
theorem acquireLock_exclusive_witness :
    (acquireLock 0 "lock:w2" 5000 emptyRedis).1 = true ∧
    acquireLock 1 "lock:w2" 5000 (acquireLock 0 "lock:w2" 5000 emptyRedis).2 =
      (false, (acquireLock 0 "lock:w2" 5000 emptyRedis).2) :=
  ⟨((acquireLock_exclusive 0 1 5000 5000 "lock:w2" emptyRedis rfl).2 rfl).1,
   ((acquireLock_exclusive 0 1 5000 5000 "lock:w2" emptyRedis rfl).2 rfl).2.2.2
     (by decide)⟩

/-- Claim C5: `withLock` either fails to acquire and returns `null`
without running the callback (the result is independent of the
callback and the store is untouched), or acquires — the callback then
runs exactly once, on a store where the lock key is held — and the
final store is `releaseLock` of whatever store the callback left, on
both the normal and the throwing path; whenever the store is healthy at
release time the lock key is gone afterwards. -/
theorem withLock_scoped_release (E α : Type) (now ttl : Nat) (lockKey : String)
    (cb cb' : RedisState → Except E α × RedisState) (st : RedisState) :
    ((acquireLock now lockKey ttl st).1 = false →
      withLock E α now lockKey cb ttl st = (.ok none, st) ∧
      withLock E α now lockKey cb ttl st = withLock E α now lockKey cb' ttl st) ∧
    ((acquireLock now lockKey ttl st).1 = true →
      (0 < ttl →
        RedisState.get (acquireLock now lockKey ttl st).2 now lockKey = some "1") ∧
      withLock E α now lockKey cb ttl st =
        (Except.map some (cb (acquireLock now lockKey ttl st).2).1,
         releaseLock lockKey (cb (acquireLock now lockKey ttl st).2).2) ∧
      ((cb (acquireLock now lockKey ttl st).2).2.err = false →
        ∀ t, RedisState.get (withLock E α now lockKey cb ttl st).2 t lockKey = none)) := by
  constructor
  · intro hfail
    have hframe := acquireLock_fail_frame now ttl lockKey st hfail
    constructor
    · unfold withLock
      simp [hfail, hframe]
    · unfold withLock
      simp [hfail]
  · intro hacq
    have hstate := acquireLock_true_state now ttl lockKey st hacq
    have heq : withLock E α now lockKey cb ttl st =
        (Except.map some (cb (acquireLock now lockKey ttl st).2).1,
         releaseLock lockKey (cb (acquireLock now lockKey ttl st).2).2) := by
      unfold withLock
      simp only [hacq, if_true]
      cases hr : (cb (acquireLock now lockKey ttl st).2).1 with
      | ok t => simp [hr, Except.map]
      | error e => simp [hr, Except.map]
    refine ⟨?_, heq, ?_⟩
    · intro httl
      rw [hstate]
      simp [RedisState.get, httl]
    · intro hcberr t
      rw [heq]
      simp [RedisState.get, releaseLock_kv lockKey _ hcberr]

/-- Witness for C5 at a concrete store and callback: the lock is
acquired, the callback's value is returned, and the lock key is absent
from the final store. -/
theorem withLock_scoped_release_witness :
    (acquireLock 0 "lock:w5" 5000 emptyRedis).1 = true ∧
    withLock Unit Nat 0 "lock:w5" (fun s => (Except.ok 7, s)) 5000 emptyRedis =
      (Except.map some
        ((fun (s : RedisState) => ((Except.ok 7 : Except Unit Nat), s))
          (acquireLock 0 "lock:w5" 5000 emptyRedis).2).1,
       releaseLock "lock:w5"
        ((fun (s : RedisState) => ((Except.ok 7 : Except Unit Nat), s))
          (acquireLock 0 "lock:w5" 5000 emptyRedis).2).2) :=
  ⟨rfl,
   ((withLock_scoped_release Unit Nat 0 5000 "lock:w5"
      (fun s => (Except.ok 7, s)) (fun s => (Except.ok 7, s)) emptyRedis).2 rfl).2.1⟩

/-- Claim C6 counterexample: with user `u` online (the `setUserOnline`
that put it online did publish), `updateUserStatus` succeeds and
changes the stored status from `online` to `away`, yet the list of
published events is unchanged — a presence state change with no bus
event, refuting the claim as stated. -/
theorem updateUserStatus_counterexample :
    (updateUserStatus 5 "u" .away (setUserOnline 0 "u" "s1" .online emptyPresence).2).1
      = true ∧
    getUserStatus 5 "u"
      (updateUserStatus 5 "u" .away
        (setUserOnline 0 "u" "s1" .online emptyPresence).2).2 = .away ∧
    getUserStatus 5 "u" (setUserOnline 0 "u" "s1" .online emptyPresence).2 = .online ∧
    (updateUserStatus 5 "u" .away
        (setUserOnline 0 "u" "s1" .online emptyPresence).2).2.published =
      (setUserOnline 0 "u" "s1" .online emptyPresence).2.published := by
  refine ⟨rfl, rfl, rfl, rfl⟩

/-- Claim C6 amended: on a healthy store, `setUserOnline` publishes
exactly one `USER_ONLINE` event and `setUserOffline` exactly one
`USER_OFFLINE` event, but `updateUserStatus` — and the status setters
`setUserAway` / `setUserInCall` built on it — changes the stored record
without publishing anything. -/
theorem presence_publish_behaviour (now : Nat) (userId socketId : String)
    (status : UserStatus) (st : PresenceState) (hok : st.err = false) :
    (setUserOnline now userId socketId status st).2.published =
      st.published ++ [.userOnline userId status now] ∧
    (setUserOffline now userId st).2.published =
      st.published ++ [.userOffline userId now] ∧
    (updateUserStatus now userId status st).2.published = st.published ∧
    (setUserAway now userId st).2.published = st.published ∧
    (setUserInCall now userId st).2.published = st.published := by
  have hupd : ∀ (s : UserStatus),
      (updateUserStatus now userId s st).2.published = st.published := by
    intro s
    unfold updateUserStatus
    simp only [hok, Bool.false_eq_true, if_false]
    cases getUserPresence now userId st with
    | none => rfl
    | some p => rfl
  refine ⟨?_, ?_, hupd status, hupd .away, hupd .in_call⟩
  · simp [setUserOnline, hok]
  · simp [setUserOffline, hok]

/-- Witness for the amended C6 theorem at a concrete state. -/
theorem presence_publish_behaviour_witness :
    (setUserOnline 3 "u" "s1" UserStatus.online emptyPresence).2.published =
      emptyPresence.published ++ [.userOnline "u" UserStatus.online 3] ∧
    (setUserOffline 3 "u" emptyPresence).2.published =
      emptyPresence.published ++ [.userOffline "u" 3] ∧
    (updateUserStatus 3 "u" UserStatus.online emptyPresence).2.published =
      emptyPresence.published ∧
    (setUserAway 3 "u" emptyPresence).2.published = emptyPresence.published ∧
    (setUserInCall 3 "u" emptyPresence).2.published = emptyPresence.published :=
  presence_publish_behaviour 3 "u" "s1" UserStatus.online emptyPresence rfl

/-- Claim C10: when the coordination store raises on every operation,
the presence reads and the lock acquisition all catch and return their
fail-closed defaults — `false`, `OFFLINE`, `0`, and lock-not-granted
with the store untouched — instead of propagating the exception. -/
theorem store_errors_fail_closed (now ttl : Nat) (userId key : String)
    (pst : PresenceState) (st : RedisState)
    (hp : pst.err = true) (hs : st.err = true) :
    isUserOnline now userId pst = false ∧
    getUserStatus now userId pst = .offline ∧
    getOnlineUsersCount now pst = 0 ∧
    acquireLock now key ttl st = (false, st) := by
  refine ⟨?_, ?_, ?_, ?_⟩
  · simp [isUserOnline, getUserPresence, hp]
  · simp [getUserStatus, getUserPresence, hp]
  · simp [getOnlineUsersCount, hp]
  · unfold acquireLock redisSetPxNx
    simp [hs]

/-- Witness for C10 on concrete failing stores. -/
theorem store_errors_fail_closed_witness :
    isUserOnline 0 "u" failingPresence = false ∧
    getUserStatus 0 "u" failingPresence = .offline ∧
    getOnlineUsersCount 0 failingPresence = 0 ∧
    acquireLock 0 "k" 5000 failingRedis = (false, failingRedis) :=
  store_errors_fail_closed 0 5000 "u" "k" failingPresence failingRedis rfl rfl

/-- Claim C3: both mutating session operations act row-wise; a row whose
status is `ended` is never touched, any row whose status changes was
`active` before the change, `endSession` only moves it to `ended` or
`abandoned`, and the sweep only moves it to `abandoned` — so `ended`
is terminal and every transition starts from `active`. -/
theorem session_statuses_terminal (id : Nat) (s : SessionStatus) (now maxd : Nat)
    (rows : List SessionRow) (r : SessionRow) :
    (Session.endSession id s now rows).2 = rows.map (Session.endRow id s now) ∧
    (Session.cleanupAbandonedSessions maxd now rows).2 =
      rows.map (Session.abandonRow maxd now) ∧
    (r.status = .ended → Session.endRow id s now r = r ∧
      Session.abandonRow maxd now r = r) ∧
    ((Session.endRow id s now r).status ≠ r.status →
      r.status = .active ∧
      ((Session.endRow id s now r).status = .ended ∨
       (Session.endRow id s now r).status = .abandoned)) ∧
    ((Session.abandonRow maxd now r).status ≠ r.status →
      r.status = .active ∧ (Session.abandonRow maxd now r).status = .abandoned) := by
  refine ⟨rfl, rfl, ?_, ?_, ?_⟩
  · intro hend
    constructor
    · simp [Session.endRow, hend]
    · simp [Session.abandonRow, Session.overaged, hend]
  · intro hch
    unfold Session.endRow at hch ⊢
    by_cases hc : r.id = id ∧ r.status = SessionStatus.active
    · obtain ⟨hc1, hc2⟩ := hc
      refine ⟨hc2, ?_⟩
      rw [if_pos ⟨hc1, hc2⟩] at hch ⊢
      rw [hc2] at hch
      cases s with
      | active => exact absurd rfl hch
      | ended => exact Or.inl rfl
      | abandoned => exact Or.inr rfl
    · rw [if_neg hc] at hch
      exact absurd rfl hch
  · intro hch
    unfold Session.abandonRow at hch ⊢
    by_cases hc : Session.overaged maxd now r = true
    · have hact : r.status = SessionStatus.active := by
        unfold Session.overaged at hc
        have := (Bool.and_eq_true _ _).mp hc
        exact beq_iff_eq.mp this.1
      rw [if_pos hc]
      exact ⟨hact, rfl⟩
    · rw [if_neg hc] at hch
      exact absurd rfl hch

/-- Witness for C3: neither operation's row action touches a concrete
`ended` row. -/
theorem session_statuses_terminal_witness :
    Session.endRow 1 SessionStatus.ended 5
        (⟨1, .text, "a", "b", .ended, 0, some 0⟩ : SessionRow) =
      (⟨1, .text, "a", "b", .ended, 0, some 0⟩ : SessionRow) ∧
    Session.abandonRow 60 5 (⟨1, .text, "a", "b", .ended, 0, some 0⟩ : SessionRow) =
      (⟨1, .text, "a", "b", .ended, 0, some 0⟩ : SessionRow) :=
  (session_statuses_terminal 1 .ended 5 60 []
    (⟨1, .text, "a", "b", .ended, 0, some 0⟩ : SessionRow)).2.2.1 rfl

/-- Claim C4: if the table holds an active row with the given id, the
first `endSession` returns `true` and moves that row to `ended` with
`ended_at` stamped; calling `endSession` again on the resulting table
returns `false` and changes nothing — exactly one state transition. -/
theorem endSession_idempotent (id now now' : Nat) (rows : List SessionRow)
    (h : ∃ r ∈ rows, r.id = id ∧ r.status = SessionStatus.active) :
    (Session.endSession id .ended now rows).1 = true ∧
    (∃ r ∈ (Session.endSession id .ended now rows).2,
      r.id = id ∧ r.status = .ended ∧ r.ended_at = some now) ∧
    Session.endSession id .ended now' (Session.endSession id .ended now rows).2 =
      (false, (Session.endSession id .ended now rows).2) := by
  obtain ⟨r, hr, hid, hact⟩ := h
  have hcond : ∀ x ∈ rows.map (Session.endRow id .ended now),
      ¬(x.id = id ∧ x.status = SessionStatus.active) := by
    intro x hx
    obtain ⟨r', hr', hxr⟩ := List.mem_map.mp hx
    subst hxr
    unfold Session.endRow
    by_cases hc : r'.id = id ∧ r'.status = SessionStatus.active
    · rw [if_pos hc]
      simp
    · rw [if_neg hc]
      exact hc
  refine ⟨?_, ?_, ?_⟩
  · unfold Session.endSession
    simp only [decide_eq_true_eq]
    exact List.countP_pos_iff.mpr ⟨r, hr, by simp [hid, hact]⟩
  · refine ⟨Session.endRow id .ended now r, List.mem_map_of_mem _ hr, ?_⟩
    unfold Session.endRow
    rw [if_pos ⟨hid, hact⟩]
    exact ⟨hid, rfl, rfl⟩
  · have h0 : (rows.map (Session.endRow id .ended now)).countP
        (fun x => decide (x.id = id ∧ x.status = SessionStatus.active)) = 0 := by
      rw [List.countP_eq_zero]
      intro a ha
      simpa using hcond a ha
    have hfix : ∀ x ∈ rows.map (Session.endRow id .ended now),
        Session.endRow id .ended now' x = x := by
      intro x hx
      unfold Session.endRow
      exact if_neg (hcond x hx)
    unfold Session.endSession
    rw [h0, map_fix_eq_self _ _ hfix]
    rfl

/-- Witness for C4 on a one-row table: the first end succeeds, a second
end is a success-false no-op. -/
theorem endSession_idempotent_witness :
    (Session.endSession 1 .ended 20
        [(⟨1, .text, "a", "b", .active, 10, none⟩ : SessionRow)]).1 = true ∧
    Session.endSession 1 .ended 30
        (Session.endSession 1 .ended 20
          [(⟨1, .text, "a", "b", .active, 10, none⟩ : SessionRow)]).2 =
      (false,
        (Session.endSession 1 .ended 20
          [(⟨1, .text, "a", "b", .active, 10, none⟩ : SessionRow)]).2) :=
  ⟨(endSession_idempotent 1 20 30 _
      ⟨⟨1, .text, "a", "b", .active, 10, none⟩, by simp, rfl, rfl⟩).1,
   (endSession_idempotent 1 20 30 _
      ⟨⟨1, .text, "a", "b", .active, 10, none⟩, by simp, rfl, rfl⟩).2.2⟩

/-- Claim C7: a created session never pairs a user with themselves —
`create` only returns a row with distinct users (the
`sessions_users_different` check rejects a self-pair and the catch
yields `null`), and the distinct-users table invariant is preserved by
`create`, `endSession` and the abandoned sweep. -/
theorem sessions_users_different (newId : Nat) (ty : SessionType) (u1 u2 : String)
    (id : Nat) (s : SessionStatus) (now maxd : Nat) (rows : List SessionRow)
    (hinv : ∀ r ∈ rows, r.user1_id ≠ r.user2_id) :
    (∀ row, (Session.create newId ty u1 u2 now rows).1 = some row →
      row.user1_id ≠ row.user2_id) ∧
    (∀ r ∈ (Session.create newId ty u1 u2 now rows).2, r.user1_id ≠ r.user2_id) ∧
    (∀ r ∈ (Session.endSession id s now rows).2, r.user1_id ≠ r.user2_id) ∧
    (∀ r ∈ (Session.cleanupAbandonedSessions maxd now rows).2,
      r.user1_id ≠ r.user2_id) := by
  refine ⟨?_, ?_, ?_, ?_⟩
  · intro row hrow
    unfold Session.create at hrow
    by_cases hu : u1 = u2
    · rw [if_pos hu] at hrow
      exact absurd hrow (by simp)
    · rw [if_neg hu] at hrow
      have : row = ⟨newId, ty, u1, u2, .active, now, none⟩ := by
        simpa using hrow.symm
      rw [this]
      exact hu
  · intro r hr
    unfold Session.create at hr
    by_cases hu : u1 = u2
    · rw [if_pos hu] at hr
      exact hinv r hr
    · rw [if_neg hu] at hr
      simp only [List.mem_append, List.mem_singleton] at hr
      cases hr with
      | inl hmem => exact hinv r hmem
      | inr hnew => rw [hnew]; exact hu
  · intro r hr
    obtain ⟨r', hr', hmap⟩ := List.mem_map.mp hr
    subst hmap
    unfold Session.endRow
    by_cases hc : r'.id = id ∧ r'.status = SessionStatus.active
    · rw [if_pos hc]
      exact hinv r' hr'
    · rw [if_neg hc]
      exact hinv r' hr'
  · intro r hr
    obtain ⟨r', hr', hmap⟩ := List.mem_map.mp hr
    subst hmap
    unfold Session.abandonRow
    by_cases hc : Session.overaged maxd now r' = true
    · rw [if_pos hc]
      exact hinv r' hr'
    · rw [if_neg hc]
      exact hinv r' hr'

/-- Witness for C7: creating a session between `"a"` and `"b"` on an
empty table yields a row whose participants differ. -/
theorem sessions_users_different_witness :
    (⟨1, SessionType.text, "a", "b", SessionStatus.active, 0, none⟩ :
        SessionRow).user1_id ≠
      (⟨1, SessionType.text, "a", "b", SessionStatus.active, 0, none⟩ :
        SessionRow).user2_id :=
  (sessions_users_different 1 .text "a" "b" 1 .ended 0 60 [] (by simp)).1 _ rfl

/-- Claim C8: the sweep returns exactly the number of rows that are
`active` and older than the ceiling, marks exactly those rows
`abandoned` with `ended_at = now`, leaves every other row unchanged,
and the periodic job runs it with the default 60-minute ceiling. -/
theorem abandoned_sweep_exact (maxd now : Nat) (rows : List SessionRow)
    (r : SessionRow) :
    SessionCleanupJob.ABANDONED_SESSION_TIMEOUT = 60 ∧
    SessionCleanupJob.cleanupAbandonedSessions now rows =
      Session.cleanupAbandonedSessions 60 now rows ∧
    (Session.cleanupAbandonedSessions maxd now rows).1 =
      rows.countP (Session.overaged maxd now) ∧
    (Session.cleanupAbandonedSessions maxd now rows).2 =
      rows.map (Session.abandonRow maxd now) ∧
    (Session.overaged maxd now r = true ↔
      r.status = SessionStatus.active ∧ r.started_at + maxd * 60000 < now) ∧
    (Session.overaged maxd now r = true →
      Session.abandonRow maxd now r =
        { r with status := .abandoned, ended_at := some now }) ∧
    (Session.overaged maxd now r = false → Session.abandonRow maxd now r = r) := by
  refine ⟨rfl, rfl, rfl, rfl, ?_, ?_, ?_⟩
  · unfold Session.overaged
    simp [Bool.and_eq_true, beq_iff_eq, decide_eq_true_eq]
  · intro h
    unfold Session.abandonRow
    rw [if_pos h]
  · intro h
    unfold Session.abandonRow
    rw [if_neg (by simp [h])]

/-- Witness for C8: a 61-minute-old active row is marked abandoned. -/
theorem abandoned_sweep_exact_witness :
    Session.abandonRow 60 3660000
        (⟨1, .video, "a", "b", .active, 0, none⟩ : SessionRow) =
      { (⟨1, .video, "a", "b", .active, 0, none⟩ : SessionRow) with
          status := .abandoned, ended_at := some 3660000 } :=
  (abandoned_sweep_exact 60 3660000 []
    (⟨1, .video, "a", "b", .active, 0, none⟩ : SessionRow)).2.2.2.2.2.1 (by decide)

end Zenvyra
